import Mathlib

/-!
Verification development for the chart-generation tool module `plot_tool.py`.

The module exposes four operations — `plot_tool` (render), `list_charts_tool`,
`load_chart_tool`, `delete_chart_tool` — built on external collaborators:
the JSON decoder, pandas, plotly express, the ADK artifact store, the ADK
session state mapping, and the filesystem.  The embedding below translates the
module's own code faithfully and models each external collaborator by the
contract the module relies on:

* the JSON decoder is modelled by passing the decode outcome directly
  (`Option Json`, `none` standing for a `JSONDecodeError`);
* pandas `DataFrame` construction is modelled by its column computation on
  column-oriented dicts and row-record lists;
* plotly express chart constructors are modelled as producing an abstract
  `Figure` and failing with a key error naming the offending column when the
  requested `x`/`y` column is absent from the data frame;
* the artifact store is an append-only list of named parts with integer
  version tokens; session state holds the `generated_charts` list;
* the filesystem records created directories and written files, with a
  `writable` flag controlling whether mutating calls succeed;
* the wall clock is passed in as a `DateTime` value and `strftime` with the
  format `%Y%m%d_%H%M%S` is modelled digit by digit (exact for the field
  ranges a real `datetime` can hold, with four-digit years).
-/

/-- JSON values, the result type of a successful `json.loads`. -/
inductive Json where
  | null : Json
  | bool : Bool → Json
  | num : Int → Json
  | str : String → Json
  | arr : List Json → Json
  | obj : List (String × Json) → Json

/-- Python exceptions that the module's `try/except` clauses distinguish:
`json.JSONDecodeError`, `KeyError` (carrying the missing key), and every
other exception (carrying its message). -/
inductive PyErr where
  | jsonDecodeError : PyErr
  | keyError : String → PyErr
  | otherError : String → PyErr

/-- Python dict subscription `d[k]` on a decoded JSON value: a key error on a
missing key of an object, a type error on a non-object. -/
def Json.getItem (j : Json) (k : String) : Except PyErr Json :=
  match j with
  | .obj kvs =>
    match kvs.find? (fun kv => kv.1 = k) with
    | some kv => .ok kv.2
    | none => .error (.keyError k)
  | _ => .error (.otherError "object is not subscriptable")

/-- Python str() of a decoded JSON scalar, used where the module interpolates
a parsed value into a string.  Non-scalar values are abstracted. -/
def Json.pyStr : Json → String
  | .str s => s
  | .num n => toString n
  | .bool true => "True"
  | .bool false => "False"
  | .null => "None"
  | _ => "<object>"

/-- Keeps the first occurrence of each element, dropping later duplicates. -/
def dedupFirst : List String → List String
  | [] => []
  | k :: ks => k :: (dedupFirst ks).filter (fun k2 => k2 ≠ k)

/-- Column names contributed by the object rows of a record list. -/
def rowColumns : List Json → List String
  | [] => []
  | .obj kvs :: rest => kvs.map Prod.fst ++ rowColumns rest
  | _ :: rest => rowColumns rest

/-- Whether a JSON value is an object. -/
def Json.isObj : Json → Bool
  | .obj _ => true
  | _ => false

/-- Model of a pandas DataFrame: its column names plus the raw data it was
built from. -/
structure DataFrame where
  columns : List String
  data : Json

/-- Model of `pd.DataFrame(df_data)`: a column-oriented dict yields its keys
as columns, a list of record objects yields the union of their keys, and
other inputs fail with a constructor error. -/
def pd_DataFrame (j : Json) : Except PyErr DataFrame :=
  match j with
  | .obj kvs => .ok ⟨dedupFirst (kvs.map Prod.fst), j⟩
  | .arr rows =>
    if rows.all Json.isObj then .ok ⟨dedupFirst (rowColumns rows), .arr rows⟩
    else .error (.otherError "DataFrame constructor not properly called!")
  | _ => .error (.otherError "DataFrame constructor not properly called!")

/-- Model of a plotly figure: the trace kind selected by the dispatch, the
data and columns it plots, and the layout fields the module sets. -/
structure Figure where
  trace_kind : String
  df : DataFrame
  x : String
  y : String
  title : String
  title_font_size : Nat
  xaxis_title : String
  yaxis_title : String
  template : String

/-- Model of a plotly express chart constructor (`px.line`, `px.bar`,
`px.scatter`, `px.area`): the charting library is an external collaborator;
per its contract a requested column absent from the data frame fails with an
error naming the offending column, surfaced by the module's key-error
handler. -/
def px_chart (kind : String) (df : DataFrame) (x y title : String) :
    Except PyErr Figure :=
  if x ∈ df.columns then
    if y ∈ df.columns then
      .ok ⟨kind, df, x, y, title, 0, "", "", ""⟩
    else .error (.keyError y)
  else .error (.keyError x)

def px_line (df : DataFrame) (x y title : String) : Except PyErr Figure :=
  px_chart "line" df x y title

def px_bar (df : DataFrame) (x y title : String) : Except PyErr Figure :=
  px_chart "bar" df x y title

def px_scatter (df : DataFrame) (x y title : String) : Except PyErr Figure :=
  px_chart "scatter" df x y title

def px_area (df : DataFrame) (x y title : String) : Except PyErr Figure :=
  px_chart "area" df x y title

/-- Chart-type dispatch of `plot_tool` (lines 34–44): the four recognized
tags select their constructor; anything else defaults to a line chart.  The
title is the f-string `"{y_col} vs {x_col}"`. -/
def makeFig (chart_type : String) (df : DataFrame) (x_col y_col : String) :
    Except PyErr Figure :=
  let title := y_col ++ " vs " ++ x_col
  if chart_type = "line" then px_line df x_col y_col title
  else if chart_type = "bar" then px_bar df x_col y_col title
  else if chart_type = "scatter" then px_scatter df x_col y_col title
  else if chart_type = "area" then px_area df x_col y_col title
  else px_line df x_col y_col title

/-- Python `str.title()` on a character list: a letter is uppercased when the
previous character is not a letter, lowercased otherwise. -/
def titleChars : List Char → Bool → List Char
  | [], _ => []
  | c :: rest, prevAlpha =>
    (if prevAlpha then c.toLower else c.toUpper) :: titleChars rest c.isAlpha

/-- Python `str.title()`. -/
def pyTitle (s : String) : String :=
  String.mk (titleChars s.toList false)

/-- Python `str.replace('_', ' ')`: every underscore becomes a space. -/
def replaceUnderscores (s : String) : String :=
  String.mk (s.toList.map (fun c => if c = '_' then ' ' else c))

/-- Axis title computed by `fig.update_layout`:
`col.replace('_', ' ').title()`. -/
def axisTitle (col : String) : String :=
  pyTitle (replaceUnderscores col)

/-- The `fig.update_layout` call (lines 47–52). -/
def updateLayout (fig : Figure) (x_col y_col : String) : Figure :=
  { fig with
      title_font_size := 16
      xaxis_title := axisTitle x_col
      yaxis_title := axisTitle y_col
      template := "plotly_white" }

/-- Local wall-clock time as read by `datetime.now()`. -/
structure DateTime where
  year : Nat
  month : Nat
  day : Nat
  hour : Nat
  minute : Nat
  second : Nat

/-- Field ranges of a real Python `datetime` with a four-digit year; the
digit-by-digit `strftime` model below is exact on this domain. -/
def DateTime.Valid (t : DateTime) : Prop :=
  1000 ≤ t.year ∧ t.year ≤ 9999 ∧ 1 ≤ t.month ∧ t.month ≤ 12 ∧
  1 ≤ t.day ∧ t.day ≤ 31 ∧ t.hour ≤ 23 ∧ t.minute ≤ 59 ∧ t.second ≤ 59

/-- Model of `datetime.strftime("%Y%m%d_%H%M%S")`: four year digits, two
digits per remaining field, an underscore between date and time. -/
def strftime (t : DateTime) : String :=
  String.mk
    [Nat.digitChar (t.year / 1000 % 10), Nat.digitChar (t.year / 100 % 10),
     Nat.digitChar (t.year / 10 % 10), Nat.digitChar (t.year % 10),
     Nat.digitChar (t.month / 10 % 10), Nat.digitChar (t.month % 10),
     Nat.digitChar (t.day / 10 % 10), Nat.digitChar (t.day % 10),
     '_',
     Nat.digitChar (t.hour / 10 % 10), Nat.digitChar (t.hour % 10),
     Nat.digitChar (t.minute / 10 % 10), Nat.digitChar (t.minute % 10),
     Nat.digitChar (t.second / 10 % 10), Nat.digitChar (t.second % 10)]

/-- The PNG bytes produced by `fig.to_image` / `fig.write_image`, modelled
abstractly as the rendered figure plus the raster parameters. -/
structure Png where
  fig : Figure
  width : Nat
  height : Nat
  scale : Nat

/-- Model of `fig.to_image(format="png", width=..., height=..., scale=...)`. -/
def fig_to_image (fig : Figure) (width height scale : Nat) : Png :=
  ⟨fig, width, height, scale⟩

/-- Model of `types.AdkPart.from_bytes(data=..., mime_type=...)`. -/
structure AdkPart where
  data : Png
  mime_type : String

/-- One entry of the session's `generated_charts` tracking list (the dict
built at lines 71–78). -/
structure ChartInfo where
  filename : String
  chart_type : String
  x_col : String
  y_col : String
  timestamp : String
  version : Nat

/-- Model of the ADK ToolContext: the artifact store (an append-only list of
named parts, versions counted per name) and the session state's
`generated_charts` list. -/
structure ToolContext where
  artifacts : List (String × AdkPart)
  generated_charts : List ChartInfo

/-- Model of `tool_context.save_artifact(filename, part)`: appends the part
and returns the version token (the count of prior versions of that name). -/
def save_artifact (ctx : ToolContext) (name : String) (part : AdkPart) :
    Nat × ToolContext :=
  ((ctx.artifacts.filter (fun a => a.1 = name)).length,
   { ctx with artifacts := ctx.artifacts ++ [(name, part)] })

/-- Model of `tool_context.load_artifact(name)`: the latest stored version of
that name, if any. -/
def load_artifact (ctx : ToolContext) (name : String) : Option AdkPart :=
  ((ctx.artifacts.filter (fun a => a.1 = name)).map Prod.snd).getLast?

/-- Model of `tool_context.list_artifacts()`: each stored name once. -/
def list_artifacts (ctx : ToolContext) : List String :=
  dedupFirst (ctx.artifacts.map Prod.fst)

/-- Filesystem model for the no-context fallback path: the directories that
exist, the image files written, and whether mutating calls succeed. -/
structure FS where
  dirs : List String
  files : List (String × Png)
  writable : Bool

/-- Model of `os.makedirs(folder, exist_ok=True)`. -/
def os_makedirs (fs : FS) (folder : String) : Except PyErr FS :=
  if fs.writable then
    .ok { fs with dirs := if folder ∈ fs.dirs then fs.dirs else folder :: fs.dirs }
  else .error (.otherError ("Permission denied: '" ++ folder ++ "'"))

/-- Model of `os.path.join(a, b)` for the shapes that arise here: an
absolute second component wins; otherwise the components are joined with a
separator unless one is already present. -/
def os_path_join (a b : String) : String :=
  if b.toList.take 1 = ['/'] then b
  else if a = "" then b
  else if a.toList.getLast? = some '/' then a ++ b
  else a ++ "/" ++ b

/-- Model of `fig.write_image(filepath, width=..., height=..., scale=...)`. -/
def fs_write_image (fs : FS) (filepath : String) (fig : Figure)
    (width height scale : Nat) : Except PyErr FS :=
  if fs.writable then
    .ok { fs with files := (filepath, fig_to_image fig width height scale) :: fs.files }
  else .error (.otherError ("Permission denied: '" ++ filepath ++ "'"))

/-- The structured result dict every operation returns: a status, a message,
and the per-operation payload fields (absent fields are `none`). -/
structure ToolResult where
  status : String
  message : String
  artifact_name : Option String := none
  version : Option Nat := none
  chart_type : Option String := none
  filepath : Option String := none
  chart_artifacts : Option (List String) := none
  charts_history : Option (List ChartInfo) := none
  total_charts : Option Nat := none
  chart_filename : Option String := none
  chart_info : Option (Option ChartInfo) := none
  mime_type : Option String := none

/-- Chart-building stage of `plot_tool`'s try block (lines 25–52): read `df`,
`x_col`, `y_col` from the decoded params, build the data frame, build the
figure by chart-type dispatch, and apply the layout update.  Returns the
laid-out figure together with the column names. -/
def build_chart (data : Json) (chart_type : String) :
    Except PyErr (Figure × String × String) := do
  let df_data ← data.getItem "df"
  let x_val ← data.getItem "x_col"
  let y_val ← data.getItem "y_col"
  let x_col := x_val.pyStr
  let y_col := y_val.pyStr
  let df ← pd_DataFrame df_data
  let fig ← makeFig chart_type df x_col y_col
  pure (updateLayout fig x_col y_col, x_col, y_col)

/-- The module's `except` clauses (lines 102–107), mapping a raised exception
to the structured error result. -/
def plotErrResult : PyErr → ToolResult
  | .jsonDecodeError => { status := "error", message := "Invalid JSON format in params" }
  | .keyError k =>
      { status := "error", message := "Missing key in JSON data: '" ++ k ++ "'" }
  | .otherError m =>
      { status := "error", message := "Error generating chart: " ++ m }

/-- Render operation (`plot_tool`, lines 11–107).  `params` is the outcome of
`json.loads` (`none` for a decode failure); `now` is the wall clock read by
`datetime.now()`; `fs` is the filesystem.  Returns the structured result
together with the tool context and filesystem after the call. -/
def plot_tool (params : Option Json) (chart_type : String := "line")
    (save_folder : String := "charts") (tool_context : Option ToolContext := none)
    (now : DateTime := ⟨2024, 1, 1, 0, 0, 0⟩) (fs : FS := ⟨[], [], true⟩) :
    ToolResult × Option ToolContext × FS :=
  match params with
  | none => (plotErrResult .jsonDecodeError, tool_context, fs)
  | some data =>
    match build_chart data chart_type with
    | .error e => (plotErrResult e, tool_context, fs)
    | .ok (fig, x_col, y_col) =>
      let timestamp := strftime now
      let filename :=
        chart_type ++ "_" ++ y_col ++ "_vs_" ++ x_col ++ "_" ++ timestamp ++ ".png"
      match tool_context with
      | some ctx =>
        let img_bytes := fig_to_image fig 800 600 2
        let artifact_part : AdkPart := ⟨img_bytes, "image/png"⟩
        let vc := save_artifact ctx filename artifact_part
        let charts := vc.2.generated_charts
        let chart_info : ChartInfo :=
          ⟨filename, chart_type, x_col, y_col, timestamp, vc.1⟩
        let ctx2 := { vc.2 with generated_charts := charts ++ [chart_info] }
        ({ status := "success", artifact_name := some filename,
           version := some vc.1, chart_type := some chart_type,
           message := "Chart saved as artifact: " ++ filename },
         some ctx2, fs)
      | none =>
        match os_makedirs fs save_folder with
        | .error e => (plotErrResult e, none, fs)
        | .ok fs1 =>
          let filepath := os_path_join save_folder filename
          match fs_write_image fs1 filepath fig 800 600 2 with
          | .error e => (plotErrResult e, none, fs1)
          | .ok fs2 =>
            ({ status := "success", filepath := some filepath,
               chart_type := some chart_type,
               message := "Chart saved to " ++ filepath },
             none, fs2)

/-- List operation (`list_charts_tool`, lines 110–139). -/
def list_charts_tool (tool_context : Option ToolContext := none) :
    ToolResult × Option ToolContext :=
  match tool_context with
  | none =>
    ({ status := "error", message := "ToolContext required for artifact access" },
     none)
  | some ctx =>
    let artifacts := list_artifacts ctx
    let chart_artifacts := artifacts.filter (fun f => f.endsWith ".png")
    let charts_history := ctx.generated_charts
    ({ status := "success", chart_artifacts := some chart_artifacts,
       charts_history := some charts_history,
       total_charts := some chart_artifacts.length,
       message := "Found " ++ toString chart_artifacts.length ++ " chart artifacts" },
     some ctx)

/-- The linear scan of lines 167–171: the first tracked record whose
`filename` equals the requested one, if any. -/
def find_chart : List ChartInfo → String → Option ChartInfo
  | [], _ => none
  | c :: rest, fn => if c.filename = fn then some c else find_chart rest fn

/-- Load operation (`load_chart_tool`, lines 142–182). -/
def load_chart_tool (chart_filename : String)
    (tool_context : Option ToolContext := none) :
    ToolResult × Option ToolContext :=
  match tool_context with
  | none =>
    ({ status := "error", message := "ToolContext required for artifact access" },
     none)
  | some ctx =>
    match load_artifact ctx chart_filename with
    | none =>
      ({ status := "error",
         message := "Chart '" ++ chart_filename ++ "' not found in artifacts" },
       some ctx)
    | some chart_part =>
      let charts_history := ctx.generated_charts
      let chart_info := find_chart charts_history chart_filename
      ({ status := "success", chart_filename := some chart_filename,
         chart_info := some chart_info,
         mime_type := some chart_part.mime_type,
         message := "Chart '" ++ chart_filename ++ "' loaded successfully" },
       some ctx)

/-- Delete operation (`delete_chart_tool`, lines 185–218). -/
def delete_chart_tool (chart_filename : String)
    (tool_context : Option ToolContext := none) :
    ToolResult × Option ToolContext :=
  match tool_context with
  | none =>
    ({ status := "error", message := "ToolContext required for state management" },
     none)
  | some ctx =>
    let charts_history := ctx.generated_charts
    let updated_charts :=
      charts_history.filter (fun c => c.filename ≠ chart_filename)
    if updated_charts.length = charts_history.length then
      ({ status := "warning",
         message := "Chart '" ++ chart_filename ++ "' was not found in tracking history" },
       some ctx)
    else
      ({ status := "success",
         message := "Chart '" ++ chart_filename ++ "' removed from tracking. " ++
           toString (charts_history.length - updated_charts.length) ++
           " chart(s) removed." },
       some { ctx with generated_charts := updated_charts })

/-! ### Concrete sample values used to witness the claim theorems -/

/-- Sample column-oriented `df` value with columns `day` and `sales`. -/
def dfW : Json :=
  Json.obj [("day", Json.arr [Json.num 1, Json.num 2]),
            ("sales", Json.arr [Json.num 10, Json.num 20])]

/-- The data frame built from `dfW`. -/
def frameW : DataFrame := ⟨["day", "sales"], dfW⟩

/-- Sample decoded params whose columns are both present. -/
def dataW : Json :=
  Json.obj [("df", dfW), ("x_col", Json.str "day"), ("y_col", Json.str "sales")]

/-- Sample decoded params whose `x_col` value `week` is not a column. -/
def dataBW : Json :=
  Json.obj [("df", dfW), ("x_col", Json.str "week"), ("y_col", Json.str "sales")]

/-- Sample decoded params whose `df` value is a bare scalar, so the data
frame constructor raises. -/
def dataEW : Json :=
  Json.obj [("df", Json.num 1), ("x_col", Json.str "day"), ("y_col", Json.str "sales")]

/-- Sample wall-clock instant. -/
def nowW : DateTime := ⟨2024, 5, 17, 13, 45, 9⟩

/-- Sample writable empty filesystem. -/
def fsW : FS := ⟨[], [], true⟩

/-- The laid-out line figure that `build_chart dataW "line"` produces. -/
def figW : Figure :=
  ⟨"line", frameW, "day", "sales", "sales vs day", 16, "Day", "Sales",
   "plotly_white"⟩

/-- Sample stored artifact part. -/
def partW : AdkPart := ⟨⟨figW, 800, 600, 2⟩, "image/png"⟩

/-- Sample tracked chart record named `c.png`. -/
def chartW : ChartInfo := ⟨"c.png", "line", "day", "sales", "20240517_134509", 0⟩

/-- Sample tool context holding one artifact and one tracked record. -/
def ctxW : ToolContext := ⟨[("c.png", partW)], [chartW]⟩

/-! ### Helper lemmas shared by the claim theorems -/

/-- Unfolding lemma: when the try block raises, `plot_tool` returns the
handler result and leaves the context and filesystem unchanged. -/
theorem plot_tool_of_error (data : Json) (ct sf : String)
    (tctx : Option ToolContext) (now : DateTime) (fs : FS) (e : PyErr)
    (h : build_chart data ct = .error e) :
    plot_tool (some data) ct sf tctx now fs = (plotErrResult e, tctx, fs) := by
  simp [plot_tool, h]

/-- Unfolding lemma for the context path of `plot_tool` on a successfully
built figure. -/
theorem plot_tool_of_ok_ctx (data : Json) (ct sf : String) (ctx : ToolContext)
    (now : DateTime) (fs : FS) (fig : Figure) (xs ys : String)
    (h : build_chart data ct = .ok (fig, xs, ys)) :
    plot_tool (some data) ct sf (some ctx) now fs =
      ({ status := "success",
         artifact_name :=
           some (ct ++ "_" ++ ys ++ "_vs_" ++ xs ++ "_" ++ strftime now ++ ".png"),
         version := some ((ctx.artifacts.filter (fun a =>
           a.1 = ct ++ "_" ++ ys ++ "_vs_" ++ xs ++ "_" ++ strftime now ++ ".png")).length),
         chart_type := some ct,
         message := "Chart saved as artifact: " ++
           (ct ++ "_" ++ ys ++ "_vs_" ++ xs ++ "_" ++ strftime now ++ ".png") },
       some { artifacts := ctx.artifacts ++
                [(ct ++ "_" ++ ys ++ "_vs_" ++ xs ++ "_" ++ strftime now ++ ".png",
                  ⟨fig_to_image fig 800 600 2, "image/png"⟩)],
              generated_charts := ctx.generated_charts ++
                [⟨ct ++ "_" ++ ys ++ "_vs_" ++ xs ++ "_" ++ strftime now ++ ".png",
                  ct, xs, ys, strftime now,
                  (ctx.artifacts.filter (fun a =>
                    a.1 = ct ++ "_" ++ ys ++ "_vs_" ++ xs ++ "_" ++ strftime now ++ ".png")).length⟩] },
       fs) := by
  simp [plot_tool, h, save_artifact]

/-- Unfolding lemma for the no-context fallback path of `plot_tool` on a
successfully built figure and a writable filesystem. -/
theorem plot_tool_of_ok_noctx (data : Json) (ct sf : String)
    (now : DateTime) (fs : FS) (fig : Figure) (xs ys : String)
    (h : build_chart data ct = .ok (fig, xs, ys)) (hw : fs.writable = true) :
    plot_tool (some data) ct sf none now fs =
      ({ status := "success",
         filepath := some (os_path_join sf
           (ct ++ "_" ++ ys ++ "_vs_" ++ xs ++ "_" ++ strftime now ++ ".png")),
         chart_type := some ct,
         message := "Chart saved to " ++ os_path_join sf
           (ct ++ "_" ++ ys ++ "_vs_" ++ xs ++ "_" ++ strftime now ++ ".png") },
       none,
       { dirs := if sf ∈ fs.dirs then fs.dirs else sf :: fs.dirs,
         files := (os_path_join sf
             (ct ++ "_" ++ ys ++ "_vs_" ++ xs ++ "_" ++ strftime now ++ ".png"),
           fig_to_image fig 800 600 2) :: fs.files,
         writable := fs.writable }) := by
  simp [plot_tool, h, os_makedirs, fs_write_image, hw]

/-! ### Claim theorems -/

/-- C9: for every render call whose params string is not well-formed JSON
(modelled as a `json.loads` outcome of `none`), `plot_tool` returns the
`InvalidInput` error result `{status := "error", message := "Invalid JSON
format in params"}`, and the tool context and filesystem are returned
unchanged — no artifact, file, or tracking record is produced. -/
theorem C9_invalid_json (chart_type save_folder : String)
    (tool_context : Option ToolContext) (now : DateTime) (fs : FS) :
    plot_tool none chart_type save_folder tool_context now fs =
      ({ status := "error", message := "Invalid JSON format in params" },
       tool_context, fs) := rfl

/-- C10: `list_charts_tool` and `load_chart_tool` never modify the session
state — the `generated_charts` list (indeed the whole context) after either
call equals the one before; `list_charts_tool` only reads it, returning the
full tracked list alongside the `.png`-filtered artifact names and their
count. -/
theorem C10_list_load_read_only (ctx : ToolContext) (fn : String) :
    (list_charts_tool (some ctx)).2 = some ctx ∧
    (load_chart_tool fn (some ctx)).2 = some ctx ∧
    (list_charts_tool (some ctx)).1.charts_history = some ctx.generated_charts ∧
    (list_charts_tool (some ctx)).1.chart_artifacts =
      some ((list_artifacts ctx).filter (fun f => f.endsWith ".png")) ∧
    (list_charts_tool (some ctx)).1.total_charts =
      some ((list_artifacts ctx).filter (fun f => f.endsWith ".png")).length := by
  refine ⟨rfl, ?_, rfl, rfl, rfl⟩
  cases h : load_artifact ctx fn <;> simp [load_chart_tool, h]

/-- C7: for every `chart_type` outside {line, bar, scatter, area}, the
chart-type dispatch builds the same figure as `chart_type = "line"` would on
the same data and columns, and hence the whole chart-building stage of
`plot_tool` coincides with the one for `"line"`. -/
theorem C7_unrecognized_chart_type (ct : String) (df : DataFrame)
    (x_col y_col : String)
    (h : ct ∉ (["line", "bar", "scatter", "area"] : List String)) :
    makeFig ct df x_col y_col = makeFig "line" df x_col y_col ∧
    ∀ data : Json, build_chart data ct = build_chart data "line" := by
  simp only [List.mem_cons, List.not_mem_nil, or_false, not_or] at h
  obtain ⟨h1, h2, h3, h4⟩ := h
  have hfig : ∀ df2 x2 y2, makeFig ct df2 x2 y2 = makeFig "line" df2 x2 y2 := by
    intro df2 x2 y2
    simp [makeFig, h1, h2, h3, h4, px_line]
  refine ⟨hfig df x_col y_col, ?_⟩
  intro data
  have hfun : makeFig ct = makeFig "line" := by
    funext df2 x2 y2
    exact hfig df2 x2 y2
  simp only [build_chart, hfun]

/-- C7 witness: the unrecognized tag "pie" builds the same figure as "line"
on a concrete two-column frame. -/
theorem C7_witness :
    ("pie" ∉ (["line", "bar", "scatter", "area"] : List String)) ∧
    makeFig "pie" ⟨["day", "sales"], Json.null⟩ "day" "sales" =
      makeFig "line" ⟨["day", "sales"], Json.null⟩ "day" "sales" :=
  ⟨by decide,
   (C7_unrecognized_chart_type "pie" ⟨["day", "sales"], Json.null⟩ "day" "sales"
     (by decide)).1⟩

/-- Dispatch lemma: whatever the chart type, every branch checks the `x`
column first, so a missing `x` column fails with a key error naming it. -/
theorem makeFig_error_of_x_missing (ct : String) (df : DataFrame)
    (x_col y_col : String) (h : x_col ∉ df.columns) :
    makeFig ct df x_col y_col = .error (.keyError x_col) := by
  unfold makeFig
  split_ifs <;>
    simp [px_line, px_bar, px_scatter, px_area, px_chart, h]

/-- Dispatch lemma: with `x` present and `y` absent, every branch fails with
a key error naming the `y` column. -/
theorem makeFig_error_of_y_missing (ct : String) (df : DataFrame)
    (x_col y_col : String) (hx : x_col ∈ df.columns) (hy : y_col ∉ df.columns) :
    makeFig ct df x_col y_col = .error (.keyError y_col) := by
  unfold makeFig
  split_ifs <;>
    simp [px_line, px_bar, px_scatter, px_area, px_chart, hx, hy]

/-- Characterization of `build_chart` once the three params reads and the
data frame construction have succeeded. -/
theorem build_chart_eq (data dfj xv yv : Json) (ct : String) (df : DataFrame)
    (hdf : data.getItem "df" = .ok dfj)
    (hx : data.getItem "x_col" = .ok xv)
    (hy : data.getItem "y_col" = .ok yv)
    (hframe : pd_DataFrame dfj = .ok df) :
    build_chart data ct =
      (makeFig ct df xv.pyStr yv.pyStr).map
        (fun fig => (updateLayout fig xv.pyStr yv.pyStr, xv.pyStr, yv.pyStr)) := by
  have hbind : ∀ {α β : Type} (a : α) (f : α → Except PyErr β),
      (Except.ok a >>= f : Except PyErr β) = f a := fun _ _ => rfl
  simp only [build_chart, hdf, hbind, hx, hy, hframe]
  cases makeFig ct df xv.pyStr yv.pyStr <;> rfl


/-- C1: for every render call whose params decode to an object carrying
`df`, `x_col` and `y_col`, where the tabular structure builds but the
`x_col` or `y_col` value is absent from its columns, `plot_tool` returns the
missing-column error result, whose message names the offending column key;
the context and filesystem are unchanged. -/
theorem C1_missing_column (data dfj : Json) (xs ys : String) (df : DataFrame)
    (ct sf : String) (tctx : Option ToolContext) (now : DateTime) (fs : FS)
    (hdf : data.getItem "df" = .ok dfj)
    (hx : data.getItem "x_col" = .ok (.str xs))
    (hy : data.getItem "y_col" = .ok (.str ys))
    (hframe : pd_DataFrame dfj = .ok df) :
    (xs ∉ df.columns →
      plot_tool (some data) ct sf tctx now fs =
        ({ status := "error",
           message := "Missing key in JSON data: '" ++ xs ++ "'" }, tctx, fs)) ∧
    (xs ∈ df.columns → ys ∉ df.columns →
      plot_tool (some data) ct sf tctx now fs =
        ({ status := "error",
           message := "Missing key in JSON data: '" ++ ys ++ "'" }, tctx, fs)) := by
  have hb := build_chart_eq data dfj (.str xs) (.str ys) ct df hdf hx hy hframe
  simp only [Json.pyStr] at hb
  constructor
  · intro hxm
    have he : build_chart data ct = .error (.keyError xs) := by
      rw [hb, makeFig_error_of_x_missing ct df xs ys hxm]; rfl
    rw [plot_tool_of_error data ct sf tctx now fs _ he]; rfl
  · intro hxi hym
    have he : build_chart data ct = .error (.keyError ys) := by
      rw [hb, makeFig_error_of_y_missing ct df xs ys hxi hym]; rfl
    rw [plot_tool_of_error data ct sf tctx now fs _ he]; rfl

/-- C1 witness: rendering `dataBW`, whose `x_col` value `week` is not among
the columns `day`, `sales`, yields the error naming `week`. -/
theorem C1_witness :
    plot_tool (some dataBW) "line" "charts" none nowW fsW =
      ({ status := "error",
         message := "Missing key in JSON data: '" ++ "week" ++ "'" },
       none, fsW) :=
  (C1_missing_column dataBW dfW "week" "sales" frameW "line" "charts" none nowW
    fsW rfl rfl rfl rfl).1 (by decide)

/-- C5: for every context-based render whose chart building succeeds,
`plot_tool` stores the PNG part, appends exactly one `ChartInfo` record —
filename, chart type, both columns, timestamp, and the version token the
artifact store returned — to the end of the session's `generated_charts`
list, preserves all previously tracked records unchanged, and reports
success with `artifact_name`, `version` and `chart_type`. -/
theorem C5_render_appends_record (data : Json) (ct sf : String)
    (ctx : ToolContext) (now : DateTime) (fs : FS) (fig : Figure)
    (xs ys : String) (hb : build_chart data ct = .ok (fig, xs, ys)) :
    plot_tool (some data) ct sf (some ctx) now fs =
      ({ status := "success",
         artifact_name :=
           some (ct ++ "_" ++ ys ++ "_vs_" ++ xs ++ "_" ++ strftime now ++ ".png"),
         version := some ((ctx.artifacts.filter (fun a =>
           a.1 = ct ++ "_" ++ ys ++ "_vs_" ++ xs ++ "_" ++ strftime now ++ ".png")).length),
         chart_type := some ct,
         message := "Chart saved as artifact: " ++
           (ct ++ "_" ++ ys ++ "_vs_" ++ xs ++ "_" ++ strftime now ++ ".png") },
       some { artifacts := ctx.artifacts ++
                [(ct ++ "_" ++ ys ++ "_vs_" ++ xs ++ "_" ++ strftime now ++ ".png",
                  ⟨fig_to_image fig 800 600 2, "image/png"⟩)],
              generated_charts := ctx.generated_charts ++
                [⟨ct ++ "_" ++ ys ++ "_vs_" ++ xs ++ "_" ++ strftime now ++ ".png",
                  ct, xs, ys, strftime now,
                  (ctx.artifacts.filter (fun a =>
                    a.1 = ct ++ "_" ++ ys ++ "_vs_" ++ xs ++ "_" ++ strftime now ++ ".png")).length⟩] },
       fs) :=
  plot_tool_of_ok_ctx data ct sf ctx now fs fig xs ys hb

/-- C5 witness: rendering `dataW` against the context `ctxW` appends the new
record after the existing `chartW` and reports success. -/
theorem C5_witness :
    plot_tool (some dataW) "line" "charts" (some ctxW) nowW fsW =
      ({ status := "success",
         artifact_name :=
           some ("line" ++ "_" ++ "sales" ++ "_vs_" ++ "day" ++ "_" ++ strftime nowW ++ ".png"),
         version := some ((ctxW.artifacts.filter (fun a =>
           a.1 = "line" ++ "_" ++ "sales" ++ "_vs_" ++ "day" ++ "_" ++ strftime nowW ++ ".png")).length),
         chart_type := some "line",
         message := "Chart saved as artifact: " ++
           ("line" ++ "_" ++ "sales" ++ "_vs_" ++ "day" ++ "_" ++ strftime nowW ++ ".png") },
       some { artifacts := ctxW.artifacts ++
                [("line" ++ "_" ++ "sales" ++ "_vs_" ++ "day" ++ "_" ++ strftime nowW ++ ".png",
                  ⟨fig_to_image figW 800 600 2, "image/png"⟩)],
              generated_charts := ctxW.generated_charts ++
                [⟨"line" ++ "_" ++ "sales" ++ "_vs_" ++ "day" ++ "_" ++ strftime nowW ++ ".png",
                  "line", "day", "sales", strftime nowW,
                  (ctxW.artifacts.filter (fun a =>
                    a.1 = "line" ++ "_" ++ "sales" ++ "_vs_" ++ "day" ++ "_" ++ strftime nowW ++ ".png")).length⟩] },
       fsW) :=
  C5_render_appends_record dataW "line" "charts" ctxW nowW fsW figW "day" "sales" rfl

/-- C3: without a session context, `list_charts_tool`, `load_chart_tool` and
`delete_chart_tool` each return the `ContextRequired` error result, while
`plot_tool` instead takes the filesystem fallback path: given a writable
filesystem and a successfully built chart it succeeds, the save folder
exists afterwards (created if absent), and the filepath is returned. -/
theorem C3_context_required (data : Json) (ct sf fn : String) (now : DateTime)
    (fs : FS) (fig : Figure) (xs ys : String) :
    (list_charts_tool none =
      ({ status := "error",
         message := "ToolContext required for artifact access" }, none)) ∧
    (load_chart_tool fn none =
      ({ status := "error",
         message := "ToolContext required for artifact access" }, none)) ∧
    (delete_chart_tool fn none =
      ({ status := "error",
         message := "ToolContext required for state management" }, none)) ∧
    (fs.writable = true → build_chart data ct = .ok (fig, xs, ys) →
      (plot_tool (some data) ct sf none now fs).1.status = "success" ∧
      (plot_tool (some data) ct sf none now fs).1.filepath =
        some (os_path_join sf
          (ct ++ "_" ++ ys ++ "_vs_" ++ xs ++ "_" ++ strftime now ++ ".png")) ∧
      sf ∈ (plot_tool (some data) ct sf none now fs).2.2.dirs) := by
  refine ⟨rfl, rfl, rfl, ?_⟩
  intro hw hb
  rw [plot_tool_of_ok_noctx data ct sf now fs fig xs ys hb hw]
  refine ⟨rfl, rfl, ?_⟩
  dsimp only
  split_ifs with h
  · exact h
  · exact List.mem_cons_self _ _

/-- C3 witness: the fallback render of `dataW` on the writable empty
filesystem succeeds, returns the joined filepath, and creates `charts`. -/
theorem C3_witness :
    (plot_tool (some dataW) "line" "charts" none nowW fsW).1.status = "success" ∧
    (plot_tool (some dataW) "line" "charts" none nowW fsW).1.filepath =
      some (os_path_join "charts"
        ("line" ++ "_" ++ "sales" ++ "_vs_" ++ "day" ++ "_" ++ strftime nowW ++ ".png")) ∧
    "charts" ∈ (plot_tool (some dataW) "line" "charts" none nowW fsW).2.2.dirs :=
  (C3_context_required dataW "line" "charts" "c.png" nowW fsW figW "day"
    "sales").2.2.2 rfl rfl

/-- Digits produced by the `strftime` model are decimal digit characters. -/
theorem digitChar_mod_isDigit (n : Nat) :
    (Nat.digitChar (n % 10)).isDigit = true := by
  have h : n % 10 < 10 := Nat.mod_lt _ (by norm_num)
  have hall : ∀ m, m < 10 → (Nat.digitChar m).isDigit = true := by decide
  exact hall _ h

/-- The formatted timestamp is fifteen characters long. -/
theorem strftime_length (t : DateTime) : (strftime t).length = 15 := rfl

/-- The formatted timestamp carries exactly fourteen digit characters. -/
theorem strftime_digit_count (t : DateTime) :
    ((strftime t).toList.filter Char.isDigit).length = 14 := by
  have hu : Char.isDigit '_' = false := rfl
  simp [strftime, String.toList, List.filter_cons, digitChar_mod_isDigit, hu]

/-- C6: for every successful render (context path or fallback path), the
returned filename is `"{chart_type}_{y_col}_vs_{x_col}_{timestamp}.png"`,
where the timestamp is the current local time formatted `YYYYMMDD_HHMMSS` —
fifteen characters holding fourteen digits at second resolution.  The
`DateTime.Valid` bound records the field ranges on which the `strftime`
model is exact. -/
theorem C6_filename_pattern (data : Json) (ct sf : String) (ctx : ToolContext)
    (now : DateTime) (fs : FS) (fig : Figure) (xs ys : String)
    (hb : build_chart data ct = .ok (fig, xs, ys)) (hv : now.Valid)
    (hw : fs.writable = true) :
    (plot_tool (some data) ct sf (some ctx) now fs).1.artifact_name =
      some (ct ++ "_" ++ ys ++ "_vs_" ++ xs ++ "_" ++ strftime now ++ ".png") ∧
    (plot_tool (some data) ct sf none now fs).1.filepath =
      some (os_path_join sf
        (ct ++ "_" ++ ys ++ "_vs_" ++ xs ++ "_" ++ strftime now ++ ".png")) ∧
    (strftime now).length = 15 ∧
    ((strftime now).toList.filter Char.isDigit).length = 14 := by
  refine ⟨?_, ?_, strftime_length now, strftime_digit_count now⟩
  · rw [plot_tool_of_ok_ctx data ct sf ctx now fs fig xs ys hb]
  · rw [plot_tool_of_ok_noctx data ct sf now fs fig xs ys hb hw]

/-- C6 witness: the render of `dataW` at the sample instant produces the
filename `line_sales_vs_day_20240517_134509.png` on both paths. -/
theorem C6_witness :
    (plot_tool (some dataW) "line" "charts" (some ctxW) nowW fsW).1.artifact_name =
      some ("line" ++ "_" ++ "sales" ++ "_vs_" ++ "day" ++ "_" ++ strftime nowW ++ ".png") ∧
    (plot_tool (some dataW) "line" "charts" none nowW fsW).1.filepath =
      some (os_path_join "charts"
        ("line" ++ "_" ++ "sales" ++ "_vs_" ++ "day" ++ "_" ++ strftime nowW ++ ".png")) ∧
    (strftime nowW).length = 15 ∧
    ((strftime nowW).toList.filter Char.isDigit).length = 14 :=
  C6_filename_pattern dataW "line" "charts" ctxW nowW fsW figW "day" "sales"
    rfl (by unfold DateTime.Valid nowW; exact ⟨by decide, by decide, by decide,
      by decide, by decide, by decide, by decide, by decide, by decide⟩) rfl

/-- The linear scan returns `none` exactly when no tracked record has the
requested filename. -/
theorem find_chart_eq_none (l : List ChartInfo) (fn : String) :
    find_chart l fn = none ↔ ∀ c ∈ l, c.filename ≠ fn := by
  induction l with
  | nil => simp [find_chart]
  | cons c rest ih =>
    by_cases h : c.filename = fn
    · simp [find_chart, h]
    · simp [find_chart, h, ih]

/-- C8: for every `load_chart_tool` call with a session context: a missing
blob yields the not-found error result that carries no metadata record; an
existing blob yields success whose `chart_info` is the first linear-scan
match over `generated_charts` — `none` when no record matches, which is not
an error.  The scan steps one record at a time and returns `none` exactly
when nothing matches. -/
theorem C8_load_chart (ctx : ToolContext) (fn : String) :
    (load_artifact ctx fn = none →
      load_chart_tool fn (some ctx) =
        ({ status := "error",
           message := "Chart '" ++ fn ++ "' not found in artifacts" },
         some ctx)) ∧
    (∀ p, load_artifact ctx fn = some p →
      load_chart_tool fn (some ctx) =
        ({ status := "success", chart_filename := some fn,
           chart_info := some (find_chart ctx.generated_charts fn),
           mime_type := some p.mime_type,
           message := "Chart '" ++ fn ++ "' loaded successfully" },
         some ctx)) ∧
    (∀ c rest, find_chart (c :: rest) fn =
      if c.filename = fn then some c else find_chart rest fn) ∧
    (find_chart ctx.generated_charts fn = none ↔
      ∀ c ∈ ctx.generated_charts, c.filename ≠ fn) := by
  refine ⟨?_, ?_, fun c rest => rfl, find_chart_eq_none _ _⟩
  · intro h
    simp [load_chart_tool, h]
  · intro p h
    simp [load_chart_tool, h]

/-- C8 witness: loading the stored `c.png` against `ctxW` succeeds and
returns the first matching tracked record. -/
theorem C8_witness :
    load_chart_tool "c.png" (some ctxW) =
      ({ status := "success", chart_filename := some "c.png",
         chart_info := some (find_chart ctxW.generated_charts "c.png"),
         mime_type := some partW.mime_type,
         message := "Chart '" ++ "c.png" ++ "' loaded successfully" },
       some ctxW) :=
  (C8_load_chart ctxW "c.png").2.1 partW rfl

/-- C4: for every `delete_chart_tool` call with a session context, the
written-back list is the input list minus exactly the entries whose
`filename` equals the input; the count reported on success is the exact
number of matching entries removed; when nothing matches the result is a
`warning` (not an error) and the tracked list is left unchanged. -/
theorem C4_delete_semantics (ctx : ToolContext) (fn : String) :
    (∀ c, c ∈ ctx.generated_charts.filter (fun c => c.filename ≠ fn) ↔
      (c ∈ ctx.generated_charts ∧ c.filename ≠ fn)) ∧
    (ctx.generated_charts.length -
        (ctx.generated_charts.filter (fun c => c.filename ≠ fn)).length =
      ctx.generated_charts.countP (fun c => c.filename = fn)) ∧
    ((∀ c ∈ ctx.generated_charts, c.filename ≠ fn) →
      delete_chart_tool fn (some ctx) =
        ({ status := "warning",
           message := "Chart '" ++ fn ++ "' was not found in tracking history" },
         some ctx)) ∧
    ((∃ c ∈ ctx.generated_charts, c.filename = fn) →
      delete_chart_tool fn (some ctx) =
        ({ status := "success",
           message := "Chart '" ++ fn ++ "' removed from tracking. " ++
             toString (ctx.generated_charts.length -
               (ctx.generated_charts.filter (fun c => c.filename ≠ fn)).length) ++
             " chart(s) removed." },
         some { ctx with generated_charts :=
           ctx.generated_charts.filter (fun c => c.filename ≠ fn) })) := by
  refine ⟨?_, ?_, ?_, ?_⟩
  · intro c
    simp [List.mem_filter]
  · have h1 := List.length_eq_countP_add_countP
      (fun c : ChartInfo => decide (c.filename = fn)) ctx.generated_charts
    have hpred : (fun c : ChartInfo => decide (c.filename ≠ fn)) =
        (fun c : ChartInfo => decide ¬(decide (c.filename = fn) = true)) := by
      funext c
      by_cases h : c.filename = fn <;> simp [h]
    have h2 : (ctx.generated_charts.filter (fun c => c.filename ≠ fn)).length =
        ctx.generated_charts.countP
          (fun c => decide ¬(decide (c.filename = fn) = true)) := by
      rw [List.countP_eq_length_filter, hpred]
    omega
  · intro h
    have hfil : ctx.generated_charts.filter (fun c => c.filename ≠ fn) =
        ctx.generated_charts := by
      apply List.filter_eq_self.mpr
      intro a ha
      simpa using h a ha
    simp [delete_chart_tool, hfil]
    exact h
  · rintro ⟨c0, hc0, hfn⟩
    have hlt : (ctx.generated_charts.filter (fun c => c.filename ≠ fn)).length <
        ctx.generated_charts.length := by
      have hsub := List.filter_sublist
        (p := fun c : ChartInfo => decide (c.filename ≠ fn)) ctx.generated_charts
      rcases Nat.lt_or_ge
          (ctx.generated_charts.filter (fun c => c.filename ≠ fn)).length
          ctx.generated_charts.length with hl | hge
      · exact hl
      · exfalso
        have heq := hsub.eq_of_length (Nat.le_antisymm hsub.length_le hge)
        have : c0 ∈ ctx.generated_charts.filter (fun c => c.filename ≠ fn) := by
          rw [heq]; exact hc0
        rw [List.mem_filter] at this
        exact absurd hfn (by simpa using this.2)
    have hne : (ctx.generated_charts.filter (fun c => c.filename ≠ fn)).length ≠
        ctx.generated_charts.length := Nat.ne_of_lt hlt
    simp [delete_chart_tool, hne]
    exact ⟨c0, hc0, hfn⟩

/-- C4 witness: deleting the tracked `c.png` from `ctxW` removes its single
record and reports one chart removed; deleting an untracked name returns a
warning and leaves the context unchanged. -/
theorem C4_witness :
    delete_chart_tool "c.png" (some ctxW) =
      ({ status := "success",
         message := "Chart '" ++ "c.png" ++ "' removed from tracking. " ++
           toString (ctxW.generated_charts.length -
             (ctxW.generated_charts.filter (fun c => c.filename ≠ "c.png")).length) ++
           " chart(s) removed." },
       some { ctxW with generated_charts :=
         ctxW.generated_charts.filter (fun c => c.filename ≠ "c.png") }) ∧
    delete_chart_tool "zzz.png" (some ctxW) =
      ({ status := "warning",
         message := "Chart '" ++ "zzz.png" ++ "' was not found in tracking history" },
       some ctxW) :=
  ⟨(C4_delete_semantics ctxW "c.png").2.2.2 ⟨chartW, by simp [ctxW], rfl⟩,
   (C4_delete_semantics ctxW "zzz.png").2.2.1 (by decide)⟩

/-- C2: every operation returns a structured result whose status is one of
success, error, warning — no input makes any of the four raise past its
boundary — and any chart-building failure other than malformed JSON or a
missing key is reported as the generic error carrying the underlying
message. -/
theorem C2_structured_results (params : Option Json) (ct sf fn : String)
    (tctx : Option ToolContext) (now : DateTime) (fs : FS) :
    (plot_tool params ct sf tctx now fs).1.status ∈
      (["success", "error", "warning"] : List String) ∧
    (list_charts_tool tctx).1.status ∈
      (["success", "error", "warning"] : List String) ∧
    (load_chart_tool fn tctx).1.status ∈
      (["success", "error", "warning"] : List String) ∧
    (delete_chart_tool fn tctx).1.status ∈
      (["success", "error", "warning"] : List String) ∧
    (∀ data m, params = some data →
      build_chart data ct = .error (.otherError m) →
      plot_tool params ct sf tctx now fs =
        ({ status := "error", message := "Error generating chart: " ++ m },
         tctx, fs)) := by
  refine ⟨?_, ?_, ?_, ?_, ?_⟩
  · cases params with
    | none => exact List.Mem.tail _ (List.Mem.head _)
    | some data =>
      cases hb : build_chart data ct with
      | error e =>
        rw [plot_tool_of_error data ct sf tctx now fs e hb]
        cases e <;> simp [plotErrResult]
      | ok r =>
        obtain ⟨fig, xs, ys⟩ := r
        cases tctx with
        | some ctx =>
          rw [plot_tool_of_ok_ctx data ct sf ctx now fs fig xs ys hb]
          simp
        | none =>
          cases hw : fs.writable with
          | true =>
            rw [plot_tool_of_ok_noctx data ct sf now fs fig xs ys hb hw]
            simp
          | false =>
            simp [plot_tool, hb, os_makedirs, hw, plotErrResult]
  · cases tctx with
    | none => exact List.Mem.tail _ (List.Mem.head _)
    | some ctx => simp [list_charts_tool]
  · cases tctx with
    | none => exact List.Mem.tail _ (List.Mem.head _)
    | some ctx =>
      cases h : load_artifact ctx fn with
      | none => simp [load_chart_tool, h]
      | some p => simp [load_chart_tool, h]
  · cases tctx with
    | none => exact List.Mem.tail _ (List.Mem.head _)
    | some ctx =>
      unfold delete_chart_tool
      dsimp only
      split
      · exact List.Mem.tail _ (List.Mem.tail _ (List.Mem.head _))
      · exact List.Mem.head _
  · intro data m hp hb
    cases hp
    rw [plot_tool_of_error data ct sf tctx now fs _ hb]
    rfl

/-- C2 witness: rendering `dataEW`, whose `df` value is a scalar, fails
inside the data-frame constructor and is reported as the generic error
carrying that constructor's message. -/
theorem C2_witness :
    plot_tool (some dataEW) "line" "charts" none nowW fsW =
      ({ status := "error",
         message := "Error generating chart: " ++
           "DataFrame constructor not properly called!" },
       none, fsW) :=
  (C2_structured_results (some dataEW) "line" "charts" "c.png" none nowW
    fsW).2.2.2.2 dataEW "DataFrame constructor not properly called!" rfl rfl
